import Mathlib

set_option maxRecDepth 8000

/-!
Verification of the virtualization engine of the `virtua` repository.

The repository sources available here contain the Vue adapter
(`src/vue/Virtualizer.tsx`), which creates the virtual store, subscribes to
its notification categories, dispatches actions into it and disposes
everything on unmount.  The core store, size ledger, range calculator and
scroller live in `src/core/*`, which is not part of the provided sources,
so those components are modelled from the specification (definitions are
marked `Modelled from the spec:`).  Sizes and offsets are JavaScript
numbers; they are modelled as exact rationals (`ℚ`).
-/

namespace Virtua

/-- Modelled from the spec: the small positive constant used as the size
estimate when nothing has been measured yet and no hint was supplied
(spec §4.1: "defaulting to a small positive constant, e.g. 40"). -/
def defaultItemSize : ℚ := 40

/-- Modelled from the spec: the size ledger (spec §4.1).  `measured` holds,
for each index, the measured size if one has been reported (`some s`) or
`none` for an unmeasured (estimated) entry; `hint` is the optional
user-supplied item-size hint.  The item count is the length of `measured`. -/
structure Ledger where
  measured : List (Option ℚ)
  hint : Option ℚ
  deriving DecidableEq

/-- Item count tracked by the ledger. -/
def Ledger.count (l : Ledger) : Nat := l.measured.length

/-- The list of sizes that have actually been measured, in index order. -/
def Ledger.measuredSizes (l : Ledger) : List ℚ := l.measured.filterMap id

/-- Modelled from the spec: the fallback size for unmeasured entries — the
hint if one was supplied, otherwise the running average of all measured
sizes so far, defaulting to `defaultItemSize` when nothing has been
measured (spec §4.1 `setEstimatedSize`). -/
def Ledger.estimate (l : Ledger) : ℚ :=
  match l.hint with
  | some h => h
  | none =>
    if l.measuredSizes.length = 0 then defaultItemSize
    else l.measuredSizes.sum / l.measuredSizes.length

/-- The measured size recorded for index `i`, if any. -/
def Ledger.measuredAt (l : Ledger) (i : Nat) : Option ℚ :=
  (l.measured[i]?).join

/-- Modelled from the spec: size of the item at `i` — its measured size if
one was reported, otherwise the estimate (spec §3 "Size entry"). -/
def Ledger.getItemSize (l : Ledger) (i : Nat) : ℚ :=
  match l.measuredAt i with
  | some s => s
  | none => l.estimate

/-- Modelled from the spec: the offset of index `i` from the start, the
start margin plus the cumulative size of all items before `i`
(spec §3 "Offset cache"), computed recursively. -/
def Ledger.offsetOf (l : Ledger) (m : ℚ) : Nat → ℚ
  | 0 => m
  | i + 1 => l.offsetOf m i + l.getItemSize i

/-- Store events, one per notification category of the store
(spec §4.3: state/range changed, raw scroll offset changed,
scroll-end reached). -/
inductive StoreEvent where
  | virtualState
  | scroll
  | scrollEnd
  deriving DecidableEq

/-- Modelled from the spec: the composite store state
`{itemCount, ledger, scrollOffset, isScrolling, jumpCount}` together with
the geometry inputs (spec §4.3). -/
structure StoreState where
  ledger : Ledger
  startMargin : ℚ
  scrollOffset : ℚ
  viewportSize : ℚ
  overscan : Nat
  isScrolling : Bool
  jumpCount : Nat
  deriving DecidableEq

/-- Modelled from the spec: store creation as performed by the Vue
adapter (`createVirtualStore(props.data.length, props.itemSize, props.overscan, ...)`
in `Virtualizer.tsx`): all entries start unmeasured, overscan defaults
to 4. -/
def createVirtualStore (elementsCount : Nat) (itemSize : Option ℚ)
    (overscan : Option Nat) : StoreState :=
  { ledger := { measured := List.replicate elementsCount none, hint := itemSize }
    startMargin := 0
    scrollOffset := 0
    viewportSize := 0
    overscan := overscan.getD 4
    isScrolling := false
    jumpCount := 0 }

/-- Item count of the store. -/
def StoreState.count (s : StoreState) : Nat := s.ledger.count

/-- Item size query exposed on the handle (`getItemSize`). -/
def StoreState.getItemSize (s : StoreState) (i : Nat) : ℚ :=
  s.ledger.getItemSize i

/-- Item offset query exposed on the handle (`getItemOffset`). -/
def StoreState.getItemOffset (s : StoreState) (i : Nat) : ℚ :=
  s.ledger.offsetOf s.startMargin i

/-- Modelled from the spec: total size is `offset(itemCount)`, the full
scrollable extent (spec §3 "Total size"); exposed as `getScrollSize` in
the Vue adapter. -/
def getScrollSize (s : StoreState) : ℚ :=
  s.getItemOffset s.count

/-- The largest index `i ≤ n` with `f i ≤ o`, or `0` when none is.  Helper
for offset-to-index search. -/
def maxIdxLE (f : Nat → ℚ) (o : ℚ) : Nat → Nat
  | 0 => 0
  | n + 1 => if f (n + 1) ≤ o then n + 1 else maxIdxLE f o n

/-- Modelled from the spec: `indexAtOffset` — search over the offset
structure for the item containing the given offset; ties at exact offset
boundaries resolve toward including the boundary item (spec §4.1, §4.2). -/
def StoreState.indexAtOffset (s : StoreState) (o : ℚ) : Nat :=
  maxIdxLE (fun i => s.getItemOffset i) o (s.count - 1)

/-- Start of the visible range before overscan clamping (`findStartIndex`
on the handle). -/
def StoreState.findStartIndex (s : StoreState) : Nat :=
  s.indexAtOffset s.scrollOffset

/-- End of the visible range before overscan clamping (`findEndIndex` on
the handle). -/
def StoreState.findEndIndex (s : StoreState) : Nat :=
  s.indexAtOffset (s.scrollOffset + s.viewportSize)

/-- Modelled from the spec: the range calculator (spec §4.2) —
`[max(0, indexAtOffset(scrollOffset) - overscan),
  min(count-1, indexAtOffset(scrollOffset + viewportSize) + overscan)]`,
computed in `ℤ` so that `count = 0` yields an empty (inverted) range. -/
def StoreState.getRange (s : StoreState) : ℤ × ℤ :=
  (max 0 ((s.findStartIndex : ℤ) - (s.overscan : ℤ)),
   min ((s.count : ℤ) - 1) ((s.findEndIndex : ℤ) + (s.overscan : ℤ)))

/-- Store actions (spec §4.3).  The item count carried by
`itemsLengthChange` is an integer so that a negative count can be
expressed (and rejected). -/
inductive Action where
  | itemsLengthChange (len : ℤ) (shift : Bool)
  | startOffsetChange (value : ℚ)
  | scrollOffsetChange (offset : ℚ) (isUserScroll : Bool)
  | itemResize (index : Nat) (size : ℚ)
  | viewportResize (size : ℚ)
  | scrollEndReached
  deriving DecidableEq

/-- Modelled from the spec: `ItemsLengthChange` (spec §4.1 `resize`,
§4.3).  A negative count is rejected with no mutation.  On growth the new
indices are unmeasured; with `shift` they are inserted at the front and
the scroll offset grows by their total (estimated) size.  On shrink,
trailing — or leading, with `shift` — entries are dropped; with `shift`
the scroll offset shrinks by the total size of the dropped prefix. -/
def applyItemsLengthChange (s : StoreState) (len : ℤ) (shift : Bool) :
    StoreState × List StoreEvent :=
  if len < 0 then (s, [])
  else
    let n := len.toNat
    if s.count ≤ n then
      let k := n - s.count
      if shift then
        ({ s with
            ledger := { s.ledger with
              measured := List.replicate k none ++ s.ledger.measured }
            scrollOffset := s.scrollOffset + k * s.ledger.estimate },
         [.virtualState])
      else
        ({ s with
            ledger := { s.ledger with
              measured := s.ledger.measured ++ List.replicate k none } },
         [.virtualState])
    else
      let k := s.count - n
      if shift then
        ({ s with
            ledger := { s.ledger with measured := s.ledger.measured.drop k }
            scrollOffset :=
              s.scrollOffset - ∑ j in Finset.range k, s.ledger.getItemSize j },
         [.virtualState])
      else
        ({ s with
            ledger := { s.ledger with measured := s.ledger.measured.take n } },
         [.virtualState])

/-- Modelled from the spec: `ItemResize` (spec §4.3).  A negative size or
an index outside `[0, count)` is rejected with no mutation (spec §7); a
report that matches the already-measured size is a no-op with no
notification.  Otherwise the size is recorded as measured and, when the
resized item's start offset is at or before the current scroll offset,
the scroll offset is silently adjusted by the size delta and `jumpCount`
incremented, without touching `isScrolling` and without a scroll event. -/
def applyItemResize (s : StoreState) (i : Nat) (size : ℚ) :
    StoreState × List StoreEvent :=
  if size < 0 ∨ s.count ≤ i then (s, [])
  else if s.ledger.measuredAt i = some size then (s, [])
  else
    let old := s.ledger.getItemSize i
    let l : Ledger := { s.ledger with measured := s.ledger.measured.set i (some size) }
    if s.getItemOffset i ≤ s.scrollOffset then
      ({ s with
          ledger := l
          scrollOffset := s.scrollOffset + (size - old)
          jumpCount := s.jumpCount + 1 },
       [.virtualState])
    else
      ({ s with ledger := l }, [.virtualState])

/-- Modelled from the spec: the store's single update entry point
(spec §4.3), returning the next state and the list of notification
categories fired by the transition. -/
def applyAction (s : StoreState) : Action → StoreState × List StoreEvent
  | .itemsLengthChange len shift => applyItemsLengthChange s len shift
  | .startOffsetChange v => ({ s with startMargin := v }, [.virtualState])
  | .scrollOffsetChange o user =>
      ({ s with scrollOffset := o, isScrolling := user || s.isScrolling },
       [.virtualState, .scroll])
  | .itemResize i size => applyItemResize s i size
  | .viewportResize v => ({ s with viewportSize := v }, [.virtualState])
  | .scrollEndReached => ({ s with isScrolling := false }, [.scrollEnd])

/-- Modelled from the spec: the store's subscription registry — an
ordered list of listener slots, each a fresh id paired with the
notification category it registered for (spec §4.3, §9). -/
structure Subscriptions where
  listeners : List (Nat × StoreEvent)
  nextId : Nat
  deriving DecidableEq

/-- Modelled from the spec: `_subscribe(category, listener)` — appends a
fresh listener slot and returns its id (the handle used to
unsubscribe). -/
def subscribeTo (r : Subscriptions) (c : StoreEvent) : Nat × Subscriptions :=
  (r.nextId,
   { listeners := r.listeners ++ [(r.nextId, c)], nextId := r.nextId + 1 })

/-- Modelled from the spec: releasing a subscription removes its listener
slot from the registry. -/
def unsubscribeFrom (r : Subscriptions) (id : Nat) : Subscriptions :=
  { r with listeners := r.listeners.filter (fun p => p.1 ≠ id) }

/-- Modelled from the spec: notification delivery for one category — the
ids of the registered listeners of that category, in registration
order. -/
def notifySubscribers (r : Subscriptions) (c : StoreEvent) : List Nat :=
  (r.listeners.filter (fun p => p.2 = c)).map (fun p => p.1)

/-- The listener registrations performed by the Vue `Virtualizer` during
setup, and the disposal state of its resizer and scroller
(`Virtualizer.tsx` lines 150–163). -/
structure MountedVirtualizer where
  subs : Subscriptions
  storeSubId : Nat
  scrollSubId : Nat
  scrollEndSubId : Nat
  resizerDisposed : Bool
  scrollerDisposed : Bool
  deriving DecidableEq

/-- Setup of the Vue `Virtualizer` component: subscribes to the
virtual-state, scroll and scroll-end categories, in that order
(`Virtualizer.tsx` lines 150–163). -/
def setupVirtualizer (r : Subscriptions) : MountedVirtualizer :=
  let s1 := subscribeTo r .virtualState
  let s2 := subscribeTo s1.2 .scroll
  let s3 := subscribeTo s2.2 .scrollEnd
  { subs := s3.2
    storeSubId := s1.1
    scrollSubId := s2.1
    scrollEndSubId := s3.1
    resizerDisposed := false
    scrollerDisposed := false }

/-- Unmount of the Vue `Virtualizer` component: releases the three
subscriptions and disposes the resizer and the scroller
(`Virtualizer.tsx` lines 193–199, `onUnmounted`). -/
def unmountVirtualizer (c : MountedVirtualizer) : MountedVirtualizer :=
  { c with
      subs :=
        unsubscribeFrom
          (unsubscribeFrom (unsubscribeFrom c.subs c.storeSubId) c.scrollSubId)
          c.scrollEndSubId
      resizerDisposed := true
      scrollerDisposed := true }

/-! ### Helper lemmas -/

theorem offsetOf_eq_sum (l : Ledger) (m : ℚ) (i : Nat) :
    l.offsetOf m i = m + ∑ j in Finset.range i, l.getItemSize j := by
  induction i with
  | zero => simp [Ledger.offsetOf]
  | succ i ih => rw [Ledger.offsetOf, ih, Finset.sum_range_succ]; ring

theorem filterMap_id_replicate_none (k : Nat) :
    (List.replicate k (none : Option ℚ)).filterMap id = [] := by
  induction k with
  | zero => rfl
  | succ k ih => simp [List.replicate_succ, ih]

theorem count_mk (ms : List (Option ℚ)) (h : Option ℚ) :
    (Ledger.mk ms h).count = ms.length := rfl

theorem measuredAt_mk (ms : List (Option ℚ)) (h : Option ℚ) (i : Nat) :
    (Ledger.mk ms h).measuredAt i = (ms[i]?).join := rfl

theorem estimate_mk_some (ms : List (Option ℚ)) (h : ℚ) :
    (Ledger.mk ms (some h)).estimate = h := rfl

theorem measuredSizes_prepend_none (ms : List (Option ℚ)) (h : Option ℚ) (k : Nat) :
    (Ledger.mk (List.replicate k none ++ ms) h).measuredSizes
      = (Ledger.mk ms h).measuredSizes := by
  simp [Ledger.measuredSizes, List.filterMap_append, filterMap_id_replicate_none]

theorem estimate_prepend_none (ms : List (Option ℚ)) (h : Option ℚ) (k : Nat) :
    (Ledger.mk (List.replicate k none ++ ms) h).estimate
      = (Ledger.mk ms h).estimate := by
  cases h with
  | none => simp [Ledger.estimate, measuredSizes_prepend_none]
  | some h => rfl

theorem getItemSize_prepend_none_shifted (ms : List (Option ℚ)) (h : Option ℚ)
    (k j : Nat) :
    (Ledger.mk (List.replicate k none ++ ms) h).getItemSize (j + k)
      = (Ledger.mk ms h).getItemSize j := by
  have hg : (List.replicate k (none : Option ℚ) ++ ms)[j + k]? = ms[j]? := by
    rw [List.getElem?_append_right (by simp)]
    simp
  unfold Ledger.getItemSize
  rw [measuredAt_mk, measuredAt_mk, hg]
  cases hv : ms[j]?.join with
  | none => simp [estimate_prepend_none]
  | some v => rfl

theorem getItemSize_prepend_none_new (ms : List (Option ℚ)) (h : Option ℚ)
    (k j : Nat) (hj : j < k) :
    (Ledger.mk (List.replicate k none ++ ms) h).getItemSize j
      = (Ledger.mk ms h).estimate := by
  have hg : (List.replicate k (none : Option ℚ) ++ ms)[j]? = some none := by
    rw [List.getElem?_append]
    simp [List.getElem?_replicate, hj]
  unfold Ledger.getItemSize
  rw [measuredAt_mk, hg]
  simp [estimate_prepend_none ms h k]

theorem getItemSize_set_self (ms : List (Option ℚ)) (h : Option ℚ)
    (i : Nat) (hi : i < ms.length) (v : ℚ) :
    (Ledger.mk (ms.set i (some v)) h).getItemSize i = v := by
  unfold Ledger.getItemSize
  rw [measuredAt_mk, List.getElem?_set_self hi]
  rfl

theorem getItemSize_set_ne_hint (ms : List (Option ℚ)) (h : ℚ)
    (i j : Nat) (hij : i ≠ j) (v : ℚ) :
    (Ledger.mk (ms.set i (some v)) (some h)).getItemSize j
      = (Ledger.mk ms (some h)).getItemSize j := by
  unfold Ledger.getItemSize
  rw [measuredAt_mk, measuredAt_mk, List.getElem?_set_ne hij]
  cases (ms[j]?).join with
  | none => rfl
  | some w => rfl

theorem offsetOf_set_le_hint (ms : List (Option ℚ)) (h : ℚ) (m : ℚ)
    (i : Nat) (v : ℚ) (j : Nat) (hj : j ≤ i) :
    (Ledger.mk (ms.set i (some v)) (some h)).offsetOf m j
      = (Ledger.mk ms (some h)).offsetOf m j := by
  induction j with
  | zero => rfl
  | succ j ih =>
    rw [Ledger.offsetOf, Ledger.offsetOf, ih (Nat.le_of_succ_le hj),
      getItemSize_set_ne_hint ms h i j (by omega) v]

theorem offsetOf_set_gt_hint (ms : List (Option ℚ)) (h : ℚ) (m : ℚ)
    (i : Nat) (hi : i < ms.length) (v : ℚ) (j : Nat) (hj : i < j) :
    (Ledger.mk (ms.set i (some v)) (some h)).offsetOf m j
      = (Ledger.mk ms (some h)).offsetOf m j
          + (v - (Ledger.mk ms (some h)).getItemSize i) := by
  induction j with
  | zero => omega
  | succ j ih =>
    rcases Nat.lt_or_ge i j with hij | hij
    · rw [Ledger.offsetOf, Ledger.offsetOf, ih hij,
        getItemSize_set_ne_hint ms h i j (by omega) v]
      ring
    · have hje : i = j := by omega
      subst hje
      rw [Ledger.offsetOf, Ledger.offsetOf,
        offsetOf_set_le_hint ms h m i v i le_rfl,
        getItemSize_set_self ms h i hi v]
      ring

theorem maxIdxLE_le (f : Nat → ℚ) (o : ℚ) (n : Nat) : maxIdxLE f o n ≤ n := by
  induction n with
  | zero => simp [maxIdxLE]
  | succ n ih =>
    rw [maxIdxLE]
    split
    · exact le_rfl
    · omega

theorem le_maxIdxLE (f : Nat → ℚ) (o : ℚ) (n a : Nat)
    (ha : a ≤ n) (hf : f a ≤ o) : a ≤ maxIdxLE f o n := by
  induction n with
  | zero => omega
  | succ n ih =>
    rw [maxIdxLE]
    split
    · exact ha
    · rcases Nat.lt_or_ge a (n + 1) with h1 | h1
      · exact ih (by omega)
      · have : a = n + 1 := by omega
        subst this
        simp_all

theorem maxIdxLE_congr (f g : Nat → ℚ) (o o' : ℚ) (a n : Nat)
    (hiff : ∀ j, a ≤ j → (f j ≤ o ↔ g j ≤ o'))
    (ha : a ≤ n) (hfa : f a ≤ o) :
    maxIdxLE f o n = maxIdxLE g o' n := by
  induction n with
  | zero => rfl
  | succ n ih =>
    rw [maxIdxLE, maxIdxLE]
    have hcond := hiff (n + 1) (by omega)
    rcases Classical.em (f (n + 1) ≤ o) with hc | hc
    · rw [if_pos hc, if_pos (hcond.mp hc)]
    · rw [if_neg hc, if_neg (fun hg => hc (hcond.mpr hg))]
      have han : a ≤ n := by
        rcases Nat.lt_or_ge a (n + 1) with h1 | h1
        · omega
        · have : a = n + 1 := by omega
          subst this
          exact absurd hfa hc
      exact ih han

theorem mem_notify_unsubscribe (r : Subscriptions) (id j : Nat) (c : StoreEvent)
    (h : j ∈ notifySubscribers (unsubscribeFrom r id) c) :
    j ∈ notifySubscribers r c ∧ j ≠ id := by
  simp only [notifySubscribers, unsubscribeFrom, List.mem_map, List.mem_filter] at h ⊢
  obtain ⟨p, ⟨hp1, hp2⟩, hp3⟩ := h
  simp only [List.mem_filter, decide_eq_true_eq] at hp1
  exact ⟨⟨p, ⟨hp1.1, hp2⟩, hp3⟩, hp3 ▸ hp1.2⟩

/-! ### Claims -/

/-- C3: for every store state and every index `i ∈ [0, itemCount]`, the
item offset equals the start margin plus the sum of the sizes of items
`0..i-1`, and the total size equals the offset of `itemCount`; the
invariant is preserved by every store action. -/
theorem c3_offset_invariant (s : StoreState) (a : Action) :
    (∀ i, i ≤ s.count →
      s.getItemOffset i = s.startMargin + ∑ j in Finset.range i, s.getItemSize j)
    ∧ getScrollSize s = s.getItemOffset s.count
    ∧ (∀ i, i ≤ (applyAction s a).1.count →
        (applyAction s a).1.getItemOffset i
          = (applyAction s a).1.startMargin
              + ∑ j in Finset.range i, (applyAction s a).1.getItemSize j)
    ∧ getScrollSize (applyAction s a).1
        = (applyAction s a).1.getItemOffset (applyAction s a).1.count :=
  ⟨fun i _ => offsetOf_eq_sum _ _ i, rfl,
   fun i _ => offsetOf_eq_sum _ _ i, rfl⟩

/-- Witness for C3 at a concrete store and action. -/
theorem c3_offset_invariant_witness :
    (createVirtualStore 3 (some 10) none).getItemOffset 2
      = (createVirtualStore 3 (some 10) none).startMargin
          + ∑ j in Finset.range 2, (createVirtualStore 3 (some 10) none).getItemSize j :=
  (c3_offset_invariant (createVirtualStore 3 (some 10) none) .scrollEndReached).1 2
    (by decide)

/-- C7: reporting the same size for the same index a second time is a
no-op — the state after the second call equals the state after the first,
and the second call fires no notifications. -/
theorem c7_report_idempotent (s : StoreState) (i : Nat) (sz : ℚ) :
    applyAction (applyAction s (.itemResize i sz)).1 (.itemResize i sz)
      = ((applyAction s (.itemResize i sz)).1, []) := by
  by_cases h1 : sz < 0 ∨ s.count ≤ i
  · simp [applyAction, applyItemResize, h1]
  · by_cases h2 : s.ledger.measuredAt i = some sz
    · simp [applyAction, applyItemResize, h1, h2]
    · have hi : i < s.count := by
        rcases not_or.mp h1 with ⟨_, h⟩; omega
      by_cases h3 : s.getItemOffset i ≤ s.scrollOffset
      · simp only [applyAction, applyItemResize, h1, if_false, h2, if_neg h2, h3,
          if_true, if_pos h3]
        simp [applyItemResize, h1, StoreState.count, Ledger.count,
          Ledger.measuredAt, List.getElem?_set_self (by exact hi)]
      · simp only [applyAction, applyItemResize, h1, if_false, h2, if_neg h2, h3,
          if_false, if_neg h3]
        simp [applyItemResize, h1, StoreState.count, Ledger.count,
          Ledger.measuredAt, List.getElem?_set_self (by exact hi)]

/-- C9: invalid inputs — a negative size, an out-of-range index (in
particular a size report for an index dropped by a shrink), or a negative
item count — are rejected with the state entirely unchanged and no
notification fired, rather than raising an error. -/
theorem c9_invalid_rejected (s : StoreState) :
    (∀ i sz, sz < 0 → applyAction s (.itemResize i sz) = (s, []))
    ∧ (∀ i sz, s.count ≤ i → applyAction s (.itemResize i sz) = (s, []))
    ∧ (∀ len shift, len < 0 → applyAction s (.itemsLengthChange len shift) = (s, [])) := by
  refine ⟨fun i sz h => ?_, fun i sz h => ?_, fun len shift h => ?_⟩
  · simp [applyAction, applyItemResize, h]
  · simp [applyAction, applyItemResize, h]
  · simp [applyAction, applyItemsLengthChange, h]

/-- Witness for C9 at a concrete store: a negative size, an out-of-range
index and a negative item count are each rejected unchanged. -/
theorem c9_invalid_rejected_witness :
    applyAction (createVirtualStore 2 none none) (.itemResize 0 (-1))
      = (createVirtualStore 2 none none, [])
    ∧ applyAction (createVirtualStore 2 none none) (.itemResize 5 7)
      = (createVirtualStore 2 none none, [])
    ∧ applyAction (createVirtualStore 2 none none) (.itemsLengthChange (-3) false)
      = (createVirtualStore 2 none none, []) :=
  ⟨(c9_invalid_rejected (createVirtualStore 2 none none)).1 0 (-1) (by norm_num),
   (c9_invalid_rejected (createVirtualStore 2 none none)).2.1 5 7 (by decide),
   (c9_invalid_rejected (createVirtualStore 2 none none)).2.2 (-3) false (by norm_num)⟩

/-- C10: unmounting the Virtualizer releases the virtual-state, scroll
and scroll-end subscriptions registered during setup and disposes the
resizer and the scroller, so notification delivery on any category after
unmount never reaches a listener of the destroyed instance. -/
theorem c10_unmount_releases (r : Subscriptions) :
    (∀ e : StoreEvent,
      (setupVirtualizer r).storeSubId
          ∉ notifySubscribers (unmountVirtualizer (setupVirtualizer r)).subs e
      ∧ (setupVirtualizer r).scrollSubId
          ∉ notifySubscribers (unmountVirtualizer (setupVirtualizer r)).subs e
      ∧ (setupVirtualizer r).scrollEndSubId
          ∉ notifySubscribers (unmountVirtualizer (setupVirtualizer r)).subs e)
    ∧ (unmountVirtualizer (setupVirtualizer r)).resizerDisposed = true
    ∧ (unmountVirtualizer (setupVirtualizer r)).scrollerDisposed = true := by
  refine ⟨fun e => ⟨fun h => ?_, fun h => ?_, fun h => ?_⟩, rfl, rfl⟩
  · have h1 := mem_notify_unsubscribe _ _ _ _ h
    have h2 := mem_notify_unsubscribe _ _ _ _ h1.1
    have h3 := mem_notify_unsubscribe _ _ _ _ h2.1
    exact h3.2 rfl
  · have h1 := mem_notify_unsubscribe _ _ _ _ h
    have h2 := mem_notify_unsubscribe _ _ _ _ h1.1
    exact h2.2 rfl
  · have h1 := mem_notify_unsubscribe _ _ _ _ h
    exact h1.2 rfl

/-- C1: for a store with a positive item count the computed range is
`[max(0, indexAtOffset(scrollOffset) - overscan),
  min(count-1, indexAtOffset(scrollOffset + viewportSize) + overscan)]`;
with item count `0` the computed range is empty (end before start); and
the overscan defaults to `4` when not supplied. -/
theorem c1_range_formula (s : StoreState) (n : Nat) (hint : Option ℚ) :
    (0 < s.count →
      s.getRange
        = (max 0 ((s.indexAtOffset s.scrollOffset : ℤ) - (s.overscan : ℤ)),
           min ((s.count : ℤ) - 1)
             ((s.indexAtOffset (s.scrollOffset + s.viewportSize) : ℤ)
               + (s.overscan : ℤ))))
    ∧ (s.count = 0 → (s.getRange).2 < (s.getRange).1)
    ∧ (createVirtualStore n hint none).overscan = 4 := by
  refine ⟨fun _ => rfl, fun h => ?_, rfl⟩
  have h1 : (s.getRange).1 = max 0 ((s.findStartIndex : ℤ) - (s.overscan : ℤ)) := rfl
  have h2 : (s.getRange).2
      = min ((s.count : ℤ) - 1) ((s.findEndIndex : ℤ) + (s.overscan : ℤ)) := rfl
  rw [h1, h2, h]
  omega

/-- Witness for C1: the formula at a store with two items, the empty
range at a store with no items. -/
theorem c1_range_formula_witness :
    (createVirtualStore 2 none none).getRange
      = (max 0 (((createVirtualStore 2 none none).indexAtOffset
            (createVirtualStore 2 none none).scrollOffset : ℤ)
              - ((createVirtualStore 2 none none).overscan : ℤ)),
         min (((createVirtualStore 2 none none).count : ℤ) - 1)
           (((createVirtualStore 2 none none).indexAtOffset
              ((createVirtualStore 2 none none).scrollOffset
                + (createVirtualStore 2 none none).viewportSize) : ℤ)
             + ((createVirtualStore 2 none none).overscan : ℤ)))
    ∧ ((createVirtualStore 0 none none).getRange).2
        < ((createVirtualStore 0 none none).getRange).1 :=
  ⟨(c1_range_formula (createVirtualStore 2 none none) 0 none).1 (by decide),
   (c1_range_formula (createVirtualStore 0 none none) 0 none).2.1 rfl⟩

theorem estimate_unmeasured (k : Nat) :
    (Ledger.mk (List.replicate k (none : Option ℚ)) none).estimate = 40 := by
  rw [Ledger.estimate]
  simp [Ledger.measuredSizes, filterMap_id_replicate_none, defaultItemSize]

theorem getItemSize_unmeasured (k i : Nat) :
    (Ledger.mk (List.replicate k (none : Option ℚ)) none).getItemSize i = 40 := by
  unfold Ledger.getItemSize
  rw [measuredAt_mk, List.getElem?_replicate]
  rcases Classical.em (i < k) with h | h
  · rw [if_pos h]
    simp [estimate_unmeasured]
  · rw [if_neg h]
    simp [estimate_unmeasured]

theorem applyItemResize_fresh (k : Nat) :
    (applyItemResize (createVirtualStore (k + 1) none none) 0 80).1
      = { ledger := Ledger.mk (some 80 :: List.replicate k none) none
          startMargin := 0
          scrollOffset := 40
          viewportSize := 0
          overscan := 4
          isScrolling := false
          jumpCount := 1 } := by
  have hcount : (createVirtualStore (k + 1) none none).count = k + 1 := by
    simp [createVirtualStore, StoreState.count, Ledger.count]
  unfold applyItemResize
  rw [if_neg (by rw [hcount]; norm_num)]
  rw [if_neg (by
    show ¬((createVirtualStore (k + 1) none none).ledger.measuredAt 0 = some 80)
    simp [createVirtualStore, Ledger.measuredAt, List.getElem?_replicate])]
  rw [if_pos (by
    show (createVirtualStore (k + 1) none none).getItemOffset 0
        ≤ (createVirtualStore (k + 1) none none).scrollOffset
    exact le_refl _)]
  have hold : (createVirtualStore (k + 1) none none).ledger.getItemSize 0 = 40 :=
    getItemSize_unmeasured (k + 1) 0
  rw [hold]
  have hset : (createVirtualStore (k + 1) none none).ledger.measured.set 0 (some 80)
      = some 80 :: List.replicate k none := by
    show (List.replicate (k + 1) (none : Option ℚ)).set 0 (some 80) = _
    rw [List.replicate_succ]
    rfl
  rw [hset]
  simp only [createVirtualStore]
  norm_num

/-- C8: with no size hint and nothing measured, the estimated size of
every (unmeasured) item is the constant 40; once measurements exist, the
fallback for a still-unmeasured index is the running average of the
measured sizes; and concretely, with 1000 items and no hint, after
`reportItemSize(0, 80)` the offset of index 1 is 80 and the estimate is
the running average 80. -/
theorem c8_estimate_fallback (l : Ledger) (i : Nat) :
    (l.hint = none → l.measuredSizes = [] → l.getItemSize i = defaultItemSize)
    ∧ (l.hint = none → l.measuredSizes ≠ [] → l.measuredAt i = none →
        l.getItemSize i = l.measuredSizes.sum / l.measuredSizes.length)
    ∧ (applyAction (createVirtualStore 1000 none none)
        (.itemResize 0 80)).1.getItemOffset 1 = 80
    ∧ (applyAction (createVirtualStore 1000 none none)
        (.itemResize 0 80)).1.ledger.estimate = 80 := by
  have happ : (applyAction (createVirtualStore 1000 none none) (.itemResize 0 80)).1
      = { ledger := Ledger.mk (some 80 :: List.replicate 999 none) none
          startMargin := 0
          scrollOffset := 40
          viewportSize := 0
          overscan := 4
          isScrolling := false
          jumpCount := 1 } := by
    show (applyItemResize (createVirtualStore 1000 none none) 0 80).1 = _
    rw [show (1000 : Nat) = 999 + 1 by norm_num]
    exact applyItemResize_fresh 999
  refine ⟨fun h1 h2 => ?_, fun h1 h2 h3 => ?_, ?_, ?_⟩
  · have hnone : l.measuredAt i = none := by
      cases hm : l.measuredAt i with
      | none => rfl
      | some v =>
        exfalso
        rw [Ledger.measuredAt] at hm
        cases hg : l.measured[i]? with
        | none => rw [hg] at hm; simp at hm
        | some o =>
          rw [hg] at hm
          cases o with
          | none => simp at hm
          | some w =>
            have hv : (some w : Option ℚ) ∈ l.measured := List.getElem?_mem hg
            have : w ∈ l.measuredSizes := by
              rw [Ledger.measuredSizes]
              exact List.mem_filterMap.mpr ⟨some w, hv, rfl⟩
            rw [h2] at this
            simp at this
    unfold Ledger.getItemSize
    rw [hnone, Ledger.estimate, h1]
    simp [h2]
  · unfold Ledger.getItemSize
    rw [h3, Ledger.estimate, h1]
    simp only []
    rw [if_neg (by simpa using h2)]
  · rw [happ]
    show (Ledger.mk (some 80 :: List.replicate 999 none) none).offsetOf 0 1 = 80
    rw [Ledger.offsetOf, Ledger.offsetOf]
    unfold Ledger.getItemSize
    rw [measuredAt_mk]
    norm_num
  · rw [happ]
    show (Ledger.mk (some 80 :: List.replicate 999 none) none).estimate = 80
    rw [Ledger.estimate]
    simp [Ledger.measuredSizes, filterMap_id_replicate_none]

/-- Witness for C8 at a concrete ledger: with no hint and no
measurements the size of item 0 is 40; with one measured size 80 at
index 0 the fallback for unmeasured index 1 is the running average. -/
theorem c8_estimate_fallback_witness :
    (Ledger.mk [none, none] none).getItemSize 0 = defaultItemSize
    ∧ (Ledger.mk [some 80, none] none).getItemSize 1
        = (Ledger.mk [some 80, none] none).measuredSizes.sum
            / (Ledger.mk [some 80, none] none).measuredSizes.length :=
  ⟨(c8_estimate_fallback (Ledger.mk [none, none] none) 0).1 rfl rfl,
   (c8_estimate_fallback (Ledger.mk [some 80, none] none) 1).2.1 rfl
     (by simp [Ledger.measuredSizes]) rfl⟩
theorem applyShiftGrow (s : StoreState) (k : Nat) :
    applyAction s (.itemsLengthChange ((s.count : ℤ) + k) true)
      = ({ s with
            ledger := Ledger.mk (List.replicate k none ++ s.ledger.measured)
              s.ledger.hint
            scrollOffset := s.scrollOffset + k * s.ledger.estimate },
         [.virtualState]) := by
  show applyItemsLengthChange s ((s.count : ℤ) + k) true = _
  unfold applyItemsLengthChange
  have ht : ((s.count : ℤ) + k).toNat = s.count + k := by omega
  rw [if_neg (by omega)]
  simp only [ht, if_pos (Nat.le_add_right s.count k)]
  have hkk : s.count + k - s.count = k := by omega
  simp [hkk]

/-- C4: with shift mode on, growing the item count by `k > 0` prepends
`k` unmeasured items: the scroll offset grows by exactly the total size
of the `k` new items, every previously-present item keeps its size (at
its index shifted by `k`), and its screen position — offset minus scroll
offset — is unchanged. -/
theorem c4_shift_prepend (s : StoreState) (k : Nat) ( _hk : 0 < k) :
    (applyAction s (.itemsLengthChange ((s.count : ℤ) + k) true)).1.scrollOffset
      = s.scrollOffset
        + ∑ j in Finset.range k,
            (applyAction s (.itemsLengthChange ((s.count : ℤ) + k) true)).1.getItemSize j
    ∧ (∀ j, j < s.count →
        (applyAction s (.itemsLengthChange ((s.count : ℤ) + k) true)).1.getItemSize (j + k)
            = s.getItemSize j
        ∧ (applyAction s (.itemsLengthChange ((s.count : ℤ) + k) true)).1.getItemOffset (j + k)
              - (applyAction s (.itemsLengthChange ((s.count : ℤ) + k) true)).1.scrollOffset
            = s.getItemOffset j - s.scrollOffset) := by
  have h1 : (applyAction s (.itemsLengthChange ((s.count : ℤ) + k) true)).1
      = { s with
            ledger := Ledger.mk (List.replicate k none ++ s.ledger.measured)
              s.ledger.hint
            scrollOffset := s.scrollOffset + k * s.ledger.estimate } := by
    rw [applyShiftGrow]
  rw [h1]
  simp only [StoreState.getItemSize, StoreState.getItemOffset]
  have hms : s.ledger = Ledger.mk s.ledger.measured s.ledger.hint := rfl
  have hnew : ∀ j, j < k →
      (Ledger.mk (List.replicate k none ++ s.ledger.measured) s.ledger.hint).getItemSize j
        = s.ledger.estimate := by
    intro j hj
    rw [getItemSize_prepend_none_new s.ledger.measured s.ledger.hint k j hj, ← hms]
  have hshift : ∀ j,
      (Ledger.mk (List.replicate k none ++ s.ledger.measured) s.ledger.hint).getItemSize (j + k)
        = s.ledger.getItemSize j := by
    intro j
    rw [getItemSize_prepend_none_shifted s.ledger.measured s.ledger.hint k j, ← hms]
  constructor
  · show s.scrollOffset + k * s.ledger.estimate = s.scrollOffset + ∑ j in Finset.range k, _
    rw [Finset.sum_congr rfl (fun j hj => hnew j (Finset.mem_range.mp hj))]
    rw [Finset.sum_const, Finset.card_range, nsmul_eq_mul]
  · intro j hj
    refine ⟨hshift j, ?_⟩
    show (Ledger.mk (List.replicate k none ++ s.ledger.measured) s.ledger.hint).offsetOf
        s.startMargin (j + k) - (s.scrollOffset + k * s.ledger.estimate)
      = s.ledger.offsetOf s.startMargin j - s.scrollOffset
    rw [offsetOf_eq_sum, offsetOf_eq_sum]
    have hsplit :
        ∑ t in Finset.range (j + k),
            (Ledger.mk (List.replicate k none ++ s.ledger.measured) s.ledger.hint).getItemSize t
          = (k : ℚ) * s.ledger.estimate + ∑ t in Finset.range j, s.ledger.getItemSize t := by
      rw [show j + k = k + j by omega, Finset.sum_range_add]
      congr 1
      · rw [Finset.sum_congr rfl (fun t ht => hnew t (Finset.mem_range.mp ht))]
        rw [Finset.sum_const, Finset.card_range, nsmul_eq_mul]
      · refine Finset.sum_congr rfl (fun t _ => ?_)
        rw [show k + t = t + k by omega, hshift t]
    rw [hsplit]
    ring

/-- Witness for C4: prepending two items to a one-item store with a size
hint of 10 raises the scroll offset by the new items' total size and
keeps the old item's size and screen position. -/
theorem c4_shift_prepend_witness :
    (applyAction (createVirtualStore 1 (some 10) none)
        (.itemsLengthChange (((createVirtualStore 1 (some 10) none).count : ℤ) + 2) true)).1.scrollOffset
      = (createVirtualStore 1 (some 10) none).scrollOffset
        + ∑ j in Finset.range 2,
            (applyAction (createVirtualStore 1 (some 10) none)
              (.itemsLengthChange (((createVirtualStore 1 (some 10) none).count : ℤ) + 2) true)).1.getItemSize j
    ∧ ((applyAction (createVirtualStore 1 (some 10) none)
          (.itemsLengthChange (((createVirtualStore 1 (some 10) none).count : ℤ) + 2) true)).1.getItemSize (0 + 2)
          = (createVirtualStore 1 (some 10) none).getItemSize 0
        ∧ (applyAction (createVirtualStore 1 (some 10) none)
            (.itemsLengthChange (((createVirtualStore 1 (some 10) none).count : ℤ) + 2) true)).1.getItemOffset (0 + 2)
              - (applyAction (createVirtualStore 1 (some 10) none)
                  (.itemsLengthChange (((createVirtualStore 1 (some 10) none).count : ℤ) + 2) true)).1.scrollOffset
            = (createVirtualStore 1 (some 10) none).getItemOffset 0
                - (createVirtualStore 1 (some 10) none).scrollOffset) :=
  ⟨(c4_shift_prepend (createVirtualStore 1 (some 10) none) 2 (by norm_num)).1,
   (c4_shift_prepend (createVirtualStore 1 (some 10) none) 2 (by norm_num)).2 0
     (by decide)⟩

theorem applyItemResize_ledger (s : StoreState) (i : Nat) (sz : ℚ)
    (h1 : ¬(sz < 0 ∨ s.count ≤ i)) (h2 : ¬s.ledger.measuredAt i = some sz) :
    (applyItemResize s i sz).1.ledger
        = Ledger.mk (s.ledger.measured.set i (some sz)) s.ledger.hint
    ∧ (applyItemResize s i sz).1.startMargin = s.startMargin := by
  unfold applyItemResize
  rw [if_neg h1, if_neg h2]
  by_cases h3 : s.getItemOffset i ≤ s.scrollOffset
  · rw [if_pos h3]
    exact ⟨rfl, rfl⟩
  · rw [if_neg h3]
    exact ⟨rfl, rfl⟩

theorem ledger_hint_eta (s : StoreState) (h : ℚ) (hh : s.ledger.hint = some h) :
    s.ledger = Ledger.mk s.ledger.measured (some h) := by
  rw [← hh]

/-- C5 (amended): provided the estimate fallback is pinned by a supplied
size hint, reporting for item `i` a measured size `Δ > 0` larger than its
current size increases the total size by exactly `Δ` and leaves the
offset of every index `j ≤ i` unchanged.  (Without a hint the running
average may change with the new measurement, resizing every unmeasured
item, so the original claim fails; see the counterexample.) -/
theorem c5_resize_monotone (s : StoreState) (i : Nat) (d : ℚ) (h : ℚ)
    (hd : 0 < d) (hh : s.ledger.hint = some h) (hi : i < s.count)
    (hnn : 0 ≤ s.getItemSize i) :
    getScrollSize (applyAction s (.itemResize i (s.getItemSize i + d))).1
        = getScrollSize s + d
    ∧ ∀ j, j ≤ i →
        (applyAction s (.itemResize i (s.getItemSize i + d))).1.getItemOffset j
          = s.getItemOffset j := by
  have hsz : ¬(s.getItemSize i + d < 0 ∨ s.count ≤ i) := by
    push_neg
    exact ⟨by linarith, by omega⟩
  have hmne : ¬s.ledger.measuredAt i = some (s.getItemSize i + d) := by
    intro hme
    have hv : s.getItemSize i = s.getItemSize i + d := by
      show s.ledger.getItemSize i = _
      unfold Ledger.getItemSize
      rw [hme]
    linarith
  have happ := applyItemResize_ledger s i (s.getItemSize i + d) hsz hmne
  have heta := ledger_hint_eta s h hh
  have hlen : i < s.ledger.measured.length := hi
  constructor
  · show (applyAction s (.itemResize i (s.getItemSize i + d))).1.getItemOffset
        (applyAction s (.itemResize i (s.getItemSize i + d))).1.count = _
    have hcount : (applyAction s (.itemResize i (s.getItemSize i + d))).1.count
        = s.count := by
      show (applyItemResize s i (s.getItemSize i + d)).1.count = s.count
      unfold StoreState.count Ledger.count
      rw [happ.1]
      exact List.length_set s.ledger.measured i _
    rw [hcount]
    show (applyItemResize s i (s.getItemSize i + d)).1.ledger.offsetOf
        (applyItemResize s i (s.getItemSize i + d)).1.startMargin s.count = _
    rw [happ.1, happ.2]
    conv_lhs => rw [heta]
    rw [offsetOf_set_gt_hint s.ledger.measured h s.startMargin i hlen _ s.count hi]
    have hback : (Ledger.mk s.ledger.measured (some h)).offsetOf s.startMargin s.count
        = getScrollSize s := by
      rw [← heta]; rfl
    have hsame : (Ledger.mk s.ledger.measured (some h)).getItemSize i
        = s.getItemSize i := by
      rw [← heta]; rfl
    rw [hback, hsame]
    ring
  · intro j hj
    show (applyItemResize s i (s.getItemSize i + d)).1.ledger.offsetOf
        (applyItemResize s i (s.getItemSize i + d)).1.startMargin j = _
    rw [happ.1, happ.2]
    conv_lhs => rw [heta]
    rw [offsetOf_set_le_hint s.ledger.measured h s.startMargin i _ j hj]
    rw [← heta]
    rfl

/-- Counterexample to C5 as stated: with no hint, item 0 unmeasured and
item 1 measured at 40 (so the running-average estimate is 40),
re-measuring item 1 at 60 (`Δ = 20`) moves the running average to 60,
which resizes the unmeasured item 0 as well: the total size grows by 40,
not 20, and the offset of index `1 ≤ i` changes. -/
theorem c5_resize_monotone_counterexample :
    (0 : ℚ) < 20
    ∧ (StoreState.mk (Ledger.mk [none, some 40] none) 0 0 0 4 false 0).getItemSize 1
        + 20 = 60
    ∧ getScrollSize (applyAction
          (StoreState.mk (Ledger.mk [none, some 40] none) 0 0 0 4 false 0)
          (.itemResize 1 60)).1
        ≠ getScrollSize
            (StoreState.mk (Ledger.mk [none, some 40] none) 0 0 0 4 false 0) + 20
    ∧ (applyAction (StoreState.mk (Ledger.mk [none, some 40] none) 0 0 0 4 false 0)
          (.itemResize 1 60)).1.getItemOffset 1
        ≠ (StoreState.mk (Ledger.mk [none, some 40] none) 0 0 0 4 false 0).getItemOffset 1 := by
  have hest : (Ledger.mk [none, some 40] (none : Option ℚ)).estimate = 40 := by
    have hms : (Ledger.mk [none, some 40] (none : Option ℚ)).measuredSizes = [40] := rfl
    rw [Ledger.estimate, hms]
    norm_num
  have hest2 : (Ledger.mk [none, some 60] (none : Option ℚ)).estimate = 60 := by
    have hms : (Ledger.mk [none, some 60] (none : Option ℚ)).measuredSizes = [60] := rfl
    rw [Ledger.estimate, hms]
    norm_num
  have happ : (applyAction (StoreState.mk (Ledger.mk [none, some 40] none) 0 0 0 4 false 0)
      (.itemResize 1 60)).1
      = StoreState.mk (Ledger.mk [none, some 60] none) 0 0 0 4 false 0 := by
    show (applyItemResize _ 1 60).1 = _
    unfold applyItemResize
    rw [if_neg (by norm_num [StoreState.count, Ledger.count])]
    rw [if_neg (by decide)]
    rw [if_neg (by
      show ¬(StoreState.mk (Ledger.mk [none, some 40] none) 0 0 0 4 false 0).getItemOffset 1 ≤ 0
      show ¬(Ledger.mk [none, some 40] (none : Option ℚ)).offsetOf 0 1 ≤ 0
      rw [Ledger.offsetOf, Ledger.offsetOf]
      unfold Ledger.getItemSize
      rw [measuredAt_mk]
      norm_num [hest])]
    rfl
  refine ⟨by norm_num, ?_, ?_, ?_⟩
  · show (Ledger.mk [none, some 40] (none : Option ℚ)).getItemSize 1 + 20 = 60
    unfold Ledger.getItemSize
    rw [measuredAt_mk]
    norm_num
  · rw [happ]
    show (Ledger.mk [none, some 60] (none : Option ℚ)).offsetOf 0 2
        ≠ (Ledger.mk [none, some 40] (none : Option ℚ)).offsetOf 0 2 + 20
    simp only [Ledger.offsetOf]
    unfold Ledger.getItemSize
    norm_num [Ledger.measuredAt, hest, hest2]
  · rw [happ]
    show (Ledger.mk [none, some 60] (none : Option ℚ)).offsetOf 0 1
        ≠ (Ledger.mk [none, some 40] (none : Option ℚ)).offsetOf 0 1
    simp only [Ledger.offsetOf]
    unfold Ledger.getItemSize
    norm_num [Ledger.measuredAt, hest, hest2]

/-- Witness for C5 at a concrete store with a size hint. -/
theorem c5_resize_monotone_witness :
    getScrollSize (applyAction
        (StoreState.mk (Ledger.mk [some 10, none] (some 10)) 0 0 0 4 false 0)
        (.itemResize 0
          ((StoreState.mk (Ledger.mk [some 10, none] (some 10)) 0 0 0 4 false 0).getItemSize 0
            + 5))).1
      = getScrollSize (StoreState.mk (Ledger.mk [some 10, none] (some 10)) 0 0 0 4 false 0)
          + 5
    ∧ (applyAction (StoreState.mk (Ledger.mk [some 10, none] (some 10)) 0 0 0 4 false 0)
        (.itemResize 0
          ((StoreState.mk (Ledger.mk [some 10, none] (some 10)) 0 0 0 4 false 0).getItemSize 0
            + 5))).1.getItemOffset 0
      = (StoreState.mk (Ledger.mk [some 10, none] (some 10)) 0 0 0 4 false 0).getItemOffset 0 :=
  ⟨(c5_resize_monotone (StoreState.mk (Ledger.mk [some 10, none] (some 10)) 0 0 0 4 false 0)
      0 5 10 (by norm_num) rfl (by decide)
      (by
        show (0 : ℚ) ≤ (Ledger.mk [some 10, none] (some 10)).getItemSize 0
        unfold Ledger.getItemSize
        rw [measuredAt_mk]
        norm_num)).1,
   (c5_resize_monotone (StoreState.mk (Ledger.mk [some 10, none] (some 10)) 0 0 0 4 false 0)
      0 5 10 (by norm_num) rfl (by decide)
      (by
        show (0 : ℚ) ≤ (Ledger.mk [some 10, none] (some 10)).getItemSize 0
        unfold Ledger.getItemSize
        rw [measuredAt_mk]
        norm_num)).2 0 le_rfl⟩

/-- C6 (amended): a measured size is never overwritten by an estimate —
under every action other than a re-measurement of the same index or an
item-count change (which renumbers or removes entries positionally), the
measured value recorded for an index is preserved verbatim. -/
theorem c6_measured_stable (s : StoreState) (a : Action) (i : Nat) (v : ℚ)
    (hv : s.ledger.measuredAt i = some v)
    (ha1 : ∀ sz, a ≠ .itemResize i sz)
    (ha2 : ∀ len sh, a ≠ .itemsLengthChange len sh) :
    (applyAction s a).1.ledger.measuredAt i = some v := by
  cases a with
  | itemsLengthChange len sh => exact absurd rfl (ha2 len sh)
  | startOffsetChange w => exact hv
  | scrollOffsetChange o u => exact hv
  | viewportResize w => exact hv
  | scrollEndReached => exact hv
  | itemResize j sz =>
    have hj : j ≠ i := by
      intro hji
      exact ha1 sz (by rw [hji])
    show (applyItemResize s j sz).1.ledger.measuredAt i = some v
    unfold applyItemResize
    by_cases h1 : sz < 0 ∨ s.count ≤ j
    · rw [if_pos h1]
      exact hv
    · rw [if_neg h1]
      by_cases h2 : s.ledger.measuredAt j = some sz
      · rw [if_pos h2]
        exact hv
      · rw [if_neg h2]
        by_cases h3 : s.getItemOffset j ≤ s.scrollOffset
        · rw [if_pos h3]
          show ((s.ledger.measured.set j (some sz))[i]?).join = some v
          rw [List.getElem?_set_ne hj]
          exact hv
        · rw [if_neg h3]
          show ((s.ledger.measured.set j (some sz))[i]?).join = some v
          rw [List.getElem?_set_ne hj]
          exact hv

/-- Counterexample to C6 as stated: a shift-mode item-count change — not
a re-measurement of index 1 — replaces the measured value at index 1
(20 before, 10 after the prepend renumbers the entries). -/
theorem c6_measured_stable_counterexample :
    (StoreState.mk (Ledger.mk [some 10, some 20] (some 5)) 0 0 0 4 false 0).ledger.measuredAt 1
        = some 20
    ∧ (applyAction (StoreState.mk (Ledger.mk [some 10, some 20] (some 5)) 0 0 0 4 false 0)
          (.itemsLengthChange 3 true)).1.ledger.measuredAt 1 = some 10
    ∧ ∀ sz : ℚ, (Action.itemsLengthChange 3 true) ≠ .itemResize 1 sz := by
  refine ⟨rfl, ?_, fun sz => by simp⟩
  show (applyItemsLengthChange _ 3 true).1.ledger.measuredAt 1 = some 10
  unfold applyItemsLengthChange
  rw [if_neg (by norm_num)]
  have ht : ((3 : ℤ)).toNat = 3 := rfl
  simp only [ht]
  rw [if_pos (by norm_num [StoreState.count, Ledger.count])]
  norm_num [StoreState.count, Ledger.count, Ledger.measuredAt, List.replicate]

/-- Witness for C6 at a concrete store and action: a scroll-offset change
leaves the measured size of index 0 intact. -/
theorem c6_measured_stable_witness :
    (applyAction (StoreState.mk (Ledger.mk [some 7] none) 0 0 0 4 false 0)
        (.scrollOffsetChange 3 true)).1.ledger.measuredAt 0 = some 7 :=
  c6_measured_stable (StoreState.mk (Ledger.mk [some 7] none) 0 0 0 4 false 0)
    (.scrollOffsetChange 3 true) 0 7 rfl (by intro sz; simp) (by intro len sh; simp)

/-- C2 (amended): when the resized item's start offset is at or before
the current scroll offset, the `ItemResize` transition adjusts the scroll
offset by exactly the size delta, increments `jumpCount`, leaves
`isScrolling` untouched, and fires neither a scroll nor a scroll-end
event; when moreover the item lies strictly above the first visible item
(its end offset is also at or before the scroll offset, with a following
in-range index) and the estimate fallback is pinned by a size hint, the
first visible item and its on-screen offset are also unchanged.  (Under
the claim's weaker condition — start offset only — the resized item can
itself be the first visible item, and its on-screen offset then moves by
the delta; see the counterexample.) -/
theorem c2_resize_compensation (s : StoreState) (i : Nat) (sz : ℚ)
    (h0 : 0 ≤ sz) (hi : i < s.count)
    (hm : ¬s.ledger.measuredAt i = some sz)
    (hcond : s.getItemOffset i ≤ s.scrollOffset) :
    (applyAction s (.itemResize i sz)).1.scrollOffset
        = s.scrollOffset + (sz - s.getItemSize i)
    ∧ (applyAction s (.itemResize i sz)).1.jumpCount = s.jumpCount + 1
    ∧ (applyAction s (.itemResize i sz)).1.isScrolling = s.isScrolling
    ∧ StoreEvent.scroll ∉ (applyAction s (.itemResize i sz)).2
    ∧ StoreEvent.scrollEnd ∉ (applyAction s (.itemResize i sz)).2
    ∧ (∀ h : ℚ, s.ledger.hint = some h →
        s.getItemOffset (i + 1) ≤ s.scrollOffset →
        i + 1 ≤ s.count - 1 →
        (applyAction s (.itemResize i sz)).1.findStartIndex = s.findStartIndex
        ∧ (applyAction s (.itemResize i sz)).1.getItemOffset
              ((applyAction s (.itemResize i sz)).1.findStartIndex)
            - (applyAction s (.itemResize i sz)).1.scrollOffset
          = s.getItemOffset s.findStartIndex - s.scrollOffset) := by
  have h1 : ¬(sz < 0 ∨ s.count ≤ i) := by
    push_neg
    exact ⟨by linarith, by omega⟩
  have happ : applyAction s (.itemResize i sz)
      = ({ s with
            ledger := Ledger.mk (s.ledger.measured.set i (some sz)) s.ledger.hint
            scrollOffset := s.scrollOffset + (sz - s.ledger.getItemSize i)
            jumpCount := s.jumpCount + 1 },
         [.virtualState]) := by
    show applyItemResize s i sz = _
    unfold applyItemResize
    rw [if_neg h1, if_neg hm, if_pos hcond]
  refine ⟨by rw [happ]; rfl, by rw [happ], by rw [happ], by rw [happ]; simp,
    by rw [happ]; simp, ?_⟩
  intro h hh hcond2 hrange
  have heta : s.ledger = Ledger.mk s.ledger.measured (some h) := ledger_hint_eta s h hh
  have hlen : i < s.ledger.measured.length := hi
  have hold : (Ledger.mk s.ledger.measured (some h)).getItemSize i
      = s.ledger.getItemSize i := by
    rw [← heta]
  have hle : ∀ j, (Ledger.mk s.ledger.measured (some h)).offsetOf s.startMargin j
      = s.getItemOffset j := by
    intro j
    rw [← heta]
    rfl
  have hshift : ∀ j, i < j →
      (Ledger.mk (s.ledger.measured.set i (some sz)) (some h)).offsetOf s.startMargin j
        = s.getItemOffset j + (sz - s.ledger.getItemSize i) := by
    intro j hj
    rw [offsetOf_set_gt_hint s.ledger.measured h s.startMargin i hlen sz j hj, hold,
      hle j]
  have hmlen : s.ledger.measured.length = s.count := rfl
  have hstart : (applyAction s (.itemResize i sz)).1.findStartIndex
      = s.findStartIndex := by
    rw [happ]
    show maxIdxLE
        (fun t => (Ledger.mk (s.ledger.measured.set i (some sz)) s.ledger.hint).offsetOf
          s.startMargin t)
        (s.scrollOffset + (sz - s.ledger.getItemSize i))
        ((Ledger.mk (s.ledger.measured.set i (some sz)) s.ledger.hint).count - 1)
      = maxIdxLE (fun t => s.getItemOffset t) s.scrollOffset (s.count - 1)
    rw [hh, count_mk, List.length_set, hmlen]
    apply maxIdxLE_congr _ _ _ _ (i + 1) _ ?_ hrange ?_
    · intro j hj
      rw [hshift j (by omega)]
      constructor
      · intro hx
        linarith
      · intro hx
        linarith
    · rw [hshift (i + 1) (by omega)]
      linarith
  have hge : i + 1 ≤ s.findStartIndex := by
    show i + 1 ≤ maxIdxLE (fun t => s.getItemOffset t) s.scrollOffset (s.count - 1)
    exact le_maxIdxLE _ _ _ _ hrange hcond2
  refine ⟨hstart, ?_⟩
  rw [hstart, happ]
  show (Ledger.mk (s.ledger.measured.set i (some sz)) s.ledger.hint).offsetOf
      s.startMargin s.findStartIndex - (s.scrollOffset + (sz - s.ledger.getItemSize i))
    = s.getItemOffset s.findStartIndex - s.scrollOffset
  rw [hh, hshift s.findStartIndex (by omega)]
  ring

/-- Counterexample to C2 as stated: two items of hinted size 10, scroll
offset 5 — item 0 is the first visible item and its start offset 0 is at
or before the scroll offset.  Measuring item 0 at 20 compensates the
scroll offset by the delta 10, and item 0 stays the first visible item,
but its on-screen offset moves from -5 to -15: the displayed content is
not unchanged. -/
theorem c2_resize_compensation_counterexample :
    (StoreState.mk (Ledger.mk [none, none] (some 10)) 0 5 10 0 false 0).getItemOffset 0
        ≤ (StoreState.mk (Ledger.mk [none, none] (some 10)) 0 5 10 0 false 0).scrollOffset
    ∧ (applyAction (StoreState.mk (Ledger.mk [none, none] (some 10)) 0 5 10 0 false 0)
            (.itemResize 0 20)).1.findStartIndex
        = (StoreState.mk (Ledger.mk [none, none] (some 10)) 0 5 10 0 false 0).findStartIndex
    ∧ (applyAction (StoreState.mk (Ledger.mk [none, none] (some 10)) 0 5 10 0 false 0)
            (.itemResize 0 20)).1.getItemOffset
          ((applyAction (StoreState.mk (Ledger.mk [none, none] (some 10)) 0 5 10 0 false 0)
            (.itemResize 0 20)).1.findStartIndex)
          - (applyAction (StoreState.mk (Ledger.mk [none, none] (some 10)) 0 5 10 0 false 0)
              (.itemResize 0 20)).1.scrollOffset
        ≠ (StoreState.mk (Ledger.mk [none, none] (some 10)) 0 5 10 0 false 0).getItemOffset
            ((StoreState.mk (Ledger.mk [none, none] (some 10)) 0 5 10 0 false 0).findStartIndex)
          - (StoreState.mk (Ledger.mk [none, none] (some 10)) 0 5 10 0 false 0).scrollOffset := by
  have hsz0 : (Ledger.mk [none, none] (some (10 : ℚ))).getItemSize 0 = 10 := by
    unfold Ledger.getItemSize
    rw [measuredAt_mk]
    norm_num [Ledger.estimate]
  have hsz0' : (Ledger.mk [some 20, none] (some (10 : ℚ))).getItemSize 0 = 20 := by
    unfold Ledger.getItemSize
    rw [measuredAt_mk]
    norm_num
  have hoff1 : (Ledger.mk [none, none] (some (10 : ℚ))).offsetOf 0 1 = 10 := by
    simp only [Ledger.offsetOf]
    rw [hsz0]
    norm_num
  have hoff1' : (Ledger.mk [some 20, none] (some (10 : ℚ))).offsetOf 0 1 = 20 := by
    simp only [Ledger.offsetOf]
    rw [hsz0']
    norm_num
  have happ : applyAction (StoreState.mk (Ledger.mk [none, none] (some 10)) 0 5 10 0 false 0)
      (.itemResize 0 20)
      = (StoreState.mk (Ledger.mk [some 20, none] (some 10)) 0 15 10 0 false 1,
         [.virtualState]) := by
    show applyItemResize _ 0 20 = _
    unfold applyItemResize
    rw [if_neg (by norm_num [StoreState.count, Ledger.count])]
    rw [if_neg (by decide)]
    rw [if_pos (by
      show (Ledger.mk [none, none] (some (10 : ℚ))).offsetOf 0 0 ≤ 5
      rw [Ledger.offsetOf]
      norm_num)]
    rw [show (Ledger.mk [none, none] (some (10 : ℚ))).getItemSize 0 = 10 from hsz0]
    norm_num
  have hfsi : (StoreState.mk (Ledger.mk [none, none] (some 10)) 0 5 10 0 false 0).findStartIndex
      = 0 := by
    show maxIdxLE
        (fun t => (Ledger.mk [none, none] (some (10 : ℚ))).offsetOf 0 t) 5 (2 - 1) = 0
    rw [show (2 : Nat) - 1 = 0 + 1 from rfl, maxIdxLE]
    rw [if_neg (by
      show ¬((Ledger.mk [none, none] (some (10 : ℚ))).offsetOf 0 1 ≤ 5)
      rw [hoff1]
      norm_num)]
    rfl
  have hfsi' : (StoreState.mk (Ledger.mk [some 20, none] (some 10)) 0 15 10 0 false 1).findStartIndex
      = 0 := by
    show maxIdxLE
        (fun t => (Ledger.mk [some 20, none] (some (10 : ℚ))).offsetOf 0 t) 15 (2 - 1) = 0
    rw [show (2 : Nat) - 1 = 0 + 1 from rfl, maxIdxLE]
    rw [if_neg (by
      show ¬((Ledger.mk [some 20, none] (some (10 : ℚ))).offsetOf 0 1 ≤ 15)
      rw [hoff1']
      norm_num)]
    rfl
  refine ⟨?_, ?_, ?_⟩
  · show (Ledger.mk [none, none] (some (10 : ℚ))).offsetOf 0 0 ≤ 5
    rw [Ledger.offsetOf]
    norm_num
  · rw [happ]
    show (StoreState.mk (Ledger.mk [some 20, none] (some 10)) 0 15 10 0 false 1).findStartIndex
        = _
    rw [hfsi, hfsi']
  · rw [happ]
    show (StoreState.mk (Ledger.mk [some 20, none] (some 10)) 0 15 10 0 false 1).getItemOffset
          ((StoreState.mk (Ledger.mk [some 20, none] (some 10)) 0 15 10 0 false 1).findStartIndex)
        - 15
      ≠ (StoreState.mk (Ledger.mk [none, none] (some 10)) 0 5 10 0 false 0).getItemOffset
          ((StoreState.mk (Ledger.mk [none, none] (some 10)) 0 5 10 0 false 0).findStartIndex)
        - 5
    rw [hfsi, hfsi']
    show (Ledger.mk [some 20, none] (some (10 : ℚ))).offsetOf 0 0 - 15
        ≠ (Ledger.mk [none, none] (some (10 : ℚ))).offsetOf 0 0 - 5
    rw [Ledger.offsetOf, Ledger.offsetOf]
    norm_num

/-- Witness for C2 at a concrete store: four measured items of size 10,
scroll offset 25, item 0 re-measured at 16 — the scroll offset is
compensated by the delta and the first visible item and its on-screen
offset are preserved. -/
theorem c2_resize_compensation_witness :
    (applyAction (StoreState.mk
        (Ledger.mk [some 10, some 10, some 10, some 10] (some 10)) 0 25 10 0 false 0)
        (.itemResize 0 16)).1.scrollOffset
      = (StoreState.mk
          (Ledger.mk [some 10, some 10, some 10, some 10] (some 10)) 0 25 10 0 false 0).scrollOffset
        + (16 - (StoreState.mk
            (Ledger.mk [some 10, some 10, some 10, some 10] (some 10)) 0 25 10 0 false 0).getItemSize 0)
    ∧ ((applyAction (StoreState.mk
          (Ledger.mk [some 10, some 10, some 10, some 10] (some 10)) 0 25 10 0 false 0)
          (.itemResize 0 16)).1.findStartIndex
        = (StoreState.mk
            (Ledger.mk [some 10, some 10, some 10, some 10] (some 10)) 0 25 10 0 false 0).findStartIndex
      ∧ (applyAction (StoreState.mk
            (Ledger.mk [some 10, some 10, some 10, some 10] (some 10)) 0 25 10 0 false 0)
            (.itemResize 0 16)).1.getItemOffset
            ((applyAction (StoreState.mk
              (Ledger.mk [some 10, some 10, some 10, some 10] (some 10)) 0 25 10 0 false 0)
              (.itemResize 0 16)).1.findStartIndex)
          - (applyAction (StoreState.mk
              (Ledger.mk [some 10, some 10, some 10, some 10] (some 10)) 0 25 10 0 false 0)
              (.itemResize 0 16)).1.scrollOffset
        = (StoreState.mk
            (Ledger.mk [some 10, some 10, some 10, some 10] (some 10)) 0 25 10 0 false 0).getItemOffset
            ((StoreState.mk
              (Ledger.mk [some 10, some 10, some 10, some 10] (some 10)) 0 25 10 0 false 0).findStartIndex)
          - (StoreState.mk
              (Ledger.mk [some 10, some 10, some 10, some 10] (some 10)) 0 25 10 0 false 0).scrollOffset) :=
  ⟨(c2_resize_compensation
      (StoreState.mk (Ledger.mk [some 10, some 10, some 10, some 10] (some 10)) 0 25 10 0 false 0)
      0 16 (by norm_num) (by decide) (by norm_num [Ledger.measuredAt])
      (by
        show (Ledger.mk [some 10, some 10, some 10, some 10] (some (10 : ℚ))).offsetOf 0 0 ≤ 25
        rw [Ledger.offsetOf]
        norm_num)).1,
   (c2_resize_compensation
      (StoreState.mk (Ledger.mk [some 10, some 10, some 10, some 10] (some 10)) 0 25 10 0 false 0)
      0 16 (by norm_num) (by decide) (by norm_num [Ledger.measuredAt])
      (by
        show (Ledger.mk [some 10, some 10, some 10, some 10] (some (10 : ℚ))).offsetOf 0 0 ≤ 25
        rw [Ledger.offsetOf]
        norm_num)).2.2.2.2.2 10 rfl
      (by
        show (Ledger.mk [some 10, some 10, some 10, some 10] (some (10 : ℚ))).offsetOf 0 1 ≤ 25
        simp only [Ledger.offsetOf]
        unfold Ledger.getItemSize
        norm_num [Ledger.measuredAt])
      (by decide)⟩

/-- Witness for C10 at a concrete (empty) registry: after unmount the
scroll listener of the instance is never notified again and the resizer
is disposed. -/
theorem c10_unmount_releases_witness :
    (setupVirtualizer (Subscriptions.mk [] 0)).scrollSubId
        ∉ notifySubscribers
            (unmountVirtualizer (setupVirtualizer (Subscriptions.mk [] 0))).subs
            StoreEvent.scroll
    ∧ (unmountVirtualizer (setupVirtualizer (Subscriptions.mk [] 0))).resizerDisposed
        = true :=
  ⟨((c10_unmount_releases (Subscriptions.mk [] 0)).1 StoreEvent.scroll).2.1,
   (c10_unmount_releases (Subscriptions.mk [] 0)).2.1⟩

end Virtua

